import Mathlib

/-!
Verification development for the afg-market-intelligence repository.

The indicator layer (`indicators.py`) and the data-shaping layer
(`comtrade_client.py`) are embedded shallowly: pandas DataFrames become
lists of row structures, monetary amounts become rationals, nullable
results become `Option`, and the float exponentiation used by the CAGR
formula becomes `Real.rpow`.  Pandas `sort_values` is modelled by the
stable `List.insertionSort`; pandas `groupby` (which sorts group keys
ascending) is modelled by sorting and deduplicating the key list.
-/

/-- Afghanistan's country code, from `config.py` (`AFGHANISTAN_CODE = 'AFG'`). -/
def AFGHANISTAN_CODE : String := "AFG"

/-- Maximum of a list of integers, used only on non-empty lists
(models `df['year'].max()`); the `0` default is never reached there. -/
def intMax (l : List Int) : Int :=
  match l with
  | [] => 0
  | x :: xs => xs.foldl max x

/-- A normalized trade record with columns `year, partner, trade_value`
(the shape consumed by the indicator functions). -/
structure TradeRow where
  year : Int
  partner : String
  trade_value : ℚ
deriving DecidableEq

/-- One row of the market-size table produced by `fetch_market_imports_batch`
as consumed by `calculate_market_share` (columns `year, partner_code,
total_import_value`). -/
structure ImportTotalRow where
  year : Int
  partner_code : String
  total_import_value : ℚ
deriving DecidableEq

/-- One supplier row as consumed by `get_market_rank`
(columns `year, supplier, import_value`). -/
structure SupplierRow where
  year : Int
  supplier : String
  import_value : ℚ
deriving DecidableEq

/-- One supplier row as consumed by `get_competitor_shares`
(columns `year, supplier, trade_value`). -/
structure SupplierTradeRow where
  year : Int
  supplier : String
  trade_value : ℚ
deriving DecidableEq

/-- Output row of the top-market identifiers (columns `partner, trade_value, rank`). -/
structure RankedMarket where
  partner : String
  trade_value : ℚ
  rank : Nat
deriving DecidableEq

/-- Output row of `get_competitor_shares`
(columns `supplier, trade_value, market_share, rank`). -/
structure CompetitorShareRow where
  supplier : String
  trade_value : ℚ
  market_share : ℚ
  rank : Nat
deriving DecidableEq

/-- Pandas `groupby('partner')['trade_value'].sum()`: group keys are sorted
ascending, each key mapped to the sum of its group's values
(`indicators.py` lines 57 and 102). -/
def groupSumByPartner (rows : List TradeRow) : List (String × ℚ) :=
  let keys := (List.insertionSort (fun a b => a ≤ b) (rows.map TradeRow.partner)).dedup
  keys.map (fun k => (k, ((rows.filter (fun r => r.partner == k)).map TradeRow.trade_value).sum))

/-- Shared ranking pipeline of `identify_top_markets` and
`identify_top_global_import_markets`: aggregate by partner, sort by value
descending, assign `rank = range(1, len+1)` by position
(`indicators.py` lines 57-63 and 102-108). -/
def rankMarkets (rows : List TradeRow) : List RankedMarket :=
  let market_totals := groupSumByPartner rows
  let sorted := List.insertionSort (fun a b => b.2 ≤ a.2) market_totals
  (sorted.zip (List.range' 1 sorted.length)).map (fun x => ⟨x.1.1, x.1.2, x.2⟩)

/-- Embedding of `identify_top_markets` (`indicators.py` lines 68-111). -/
def identify_top_markets (df_exports : List TradeRow) (top_n : Nat) (year : Option Int) :
    List RankedMarket :=
  if df_exports.isEmpty then []
  else
    let d : List TradeRow := match year with
      | some y => df_exports.filter (fun r => r.year == y)
      | none => df_exports.filter (fun r => r.year == intMax (df_exports.map TradeRow.year))
    if d.isEmpty then []
    else (rankMarkets d).take top_n

/-- Embedding of `identify_top_global_import_markets` (`indicators.py` lines 16-65),
taking the already-fetched `global_imports` table as input (the API fetch on
line 43 is external I/O); the function always ranks within the most recent year. -/
def identify_top_global_import_markets (global_imports : List TradeRow) (top_n : Nat) :
    List RankedMarket :=
  if global_imports.isEmpty then []
  else
    let d := global_imports.filter (fun r => r.year == intMax (global_imports.map TradeRow.year))
    if d.isEmpty then []
    else (rankMarkets d).take top_n

/-- Result dictionary of `calculate_growth_rate`; the short all-`none` form
models the two early returns that carry only the four metric keys. -/
structure GrowthMetrics where
  yoy_growth : Option ℚ
  cagr : Option ℝ
  absolute_growth : Option ℚ
  growth_percentage : Option ℚ
  first_year : Option Int
  last_year : Option Int
  first_value : Option ℚ
  last_value : Option ℚ

/-- The all-null growth result (`indicators.py` lines 142-147 and 154-159). -/
def emptyGrowth : GrowthMetrics := ⟨none, none, none, none, none, none, none, none⟩

/-- Per-year totals for one market: filter to the partner, group by year
(keys ascending) and sum `trade_value` (`indicators.py` lines 138-151). -/
def yearlyTotals (df_exports : List TradeRow) (market_code : String) : List (Int × ℚ) :=
  let market_data := df_exports.filter (fun r => r.partner == market_code)
  let keys := (List.insertionSort (fun a b => a ≤ b) (market_data.map TradeRow.year)).dedup
  keys.map (fun y => (y, ((market_data.filter (fun r => r.year == y)).map TradeRow.trade_value).sum))

/-- Main branch of `calculate_growth_rate` on a year-sorted totals list of
length ≥ 2 (`indicators.py` lines 161-202); `(0, 0)` defaults are unreachable
at such lengths. -/
noncomputable def growthFrom (yt : List (Int × ℚ)) : GrowthMetrics :=
  let first := yt.headI
  let lastE := yt.getLast?.getD (0, 0)
  let prev := yt.dropLast.getLast?.getD (0, 0)
  let yoy := if 0 < prev.2 then some ((lastE.2 - prev.2) / prev.2 * 100) else none
  let n_years : Int := lastE.1 - first.1
  let cagr :=
    if 0 < n_years ∧ 0 < first.2 then
      some ((((lastE.2 : ℝ) / (first.2 : ℝ)) ^ ((1 : ℝ) / (n_years : ℝ)) - 1) * 100)
    else none
  let growth_pct := if 0 < first.2 then some ((lastE.2 - first.2) / first.2 * 100) else none
  { yoy_growth := yoy
    cagr := cagr
    absolute_growth := some (lastE.2 - first.2)
    growth_percentage := growth_pct
    first_year := some first.1
    last_year := some lastE.1
    first_value := some first.2
    last_value := some lastE.2 }

/-- Embedding of `calculate_growth_rate` (`indicators.py` lines 114-202).
An empty filtered table yields an empty totals list, so the `market_data.empty`
early return and the `len < 2` early return coincide on `emptyGrowth`. -/
noncomputable def calculate_growth_rate (df_exports : List TradeRow) (market_code : String) :
    GrowthMetrics :=
  let yt := yearlyTotals df_exports market_code
  if yt.length < 2 then emptyGrowth else growthFrom yt

/-- Embedding of `calculate_market_share` (`indicators.py` lines 205-252).
The return type is `ℚ`, not `Option ℚ`: every path of the source returns a
float, with `0.0` on the empty-data and non-positive-denominator paths. -/
def calculate_market_share (afg_exports : List TradeRow) (total_imports : List ImportTotalRow)
    (market_code : String) (year : Option Int) : ℚ :=
  let afg_to_market := afg_exports.filter (fun r => r.partner == market_code)
  if afg_to_market.isEmpty then 0
  else
    let market_imports := total_imports.filter (fun r => r.partner_code == market_code)
    if market_imports.isEmpty then 0
    else
      let sel : Int := match year with
        | some y => y
        | none => min (intMax (afg_to_market.map TradeRow.year))
                      (intMax (market_imports.map ImportTotalRow.year))
      let afg_value := ((afg_to_market.filter (fun r => r.year == sel)).map TradeRow.trade_value).sum
      let total_value :=
        ((market_imports.filter (fun r => r.year == sel)).map ImportTotalRow.total_import_value).sum
      if 0 < total_value then afg_value / total_value * 100 else 0

/-- The rank-search loop of `get_market_rank` (`indicators.py` lines 316-320):
walk the value-descending rows carrying the running rank `k`, return the rank
of the first row whose value is ≤ the subject's value. -/
def findRank (rows : List SupplierRow) (v : ℚ) (k : Nat) : Option Nat :=
  match rows with
  | [] => none
  | r :: rest => if r.import_value ≤ v then some k else findRank rest v (k + 1)

/-- Embedding of `get_market_rank` (`indicators.py` lines 255-334). -/
def get_market_rank (afg_exports : List TradeRow) (all_suppliers : List SupplierRow)
    (market_code : String) (year : Option Int) : Option Nat :=
  let ms : List SupplierRow := match year with
    | some y => all_suppliers.filter (fun r => r.year == y)
    | none => all_suppliers.filter (fun r => r.year == intMax (all_suppliers.map SupplierRow.year))
  if ms.isEmpty then none
  else
    let afg_to_market := afg_exports.filter (fun r => r.partner == market_code)
    let afg_value : ℚ := match year with
      | some y => ((afg_to_market.filter (fun r => r.year == y)).map TradeRow.trade_value).sum
      | none =>
        ((afg_to_market.filter
            (fun r => r.year == intMax (afg_to_market.map TradeRow.year))).map
          TradeRow.trade_value).sum
    let sorted := List.insertionSort (fun a b => b.import_value ≤ a.import_value) ms
    match findRank sorted afg_value 1 with
    | some rk => some rk
    | none =>
      if 0 < afg_value then
        if sorted.any (fun r => r.supplier == AFGHANISTAN_CODE) then
          some (sorted.findIdx (fun r => r.supplier == AFGHANISTAN_CODE) + 1)
        else
          some (sorted.countP (fun r => decide (afg_value < r.import_value)) + 1)
      else none

/-- Embedding of `get_competitor_shares` (`indicators.py` lines 337-388):
when the summed market total is not positive, every supplier's
`market_share` is set to the float `0.0`, never to null. -/
def get_competitor_shares (all_suppliers : List SupplierTradeRow) (top_n : Nat)
    (year : Option Int) : List CompetitorShareRow :=
  let market_data : List SupplierTradeRow := match year with
    | some y => all_suppliers.filter (fun r => r.year == y)
    | none =>
      all_suppliers.filter (fun r => r.year == intMax (all_suppliers.map SupplierTradeRow.year))
  if market_data.isEmpty then []
  else
    let total_imports := (market_data.map SupplierTradeRow.trade_value).sum
    let withShare := market_data.map
      (fun r => (r, if 0 < total_imports then r.trade_value / total_imports * 100 else 0))
    let sorted := List.insertionSort (fun a b => b.1.trade_value ≤ a.1.trade_value) withShare
    ((sorted.zip (List.range' 1 sorted.length)).map
      (fun x => ⟨x.1.1.supplier, x.1.1.trade_value, x.1.2, x.2⟩)).take top_n

/-- A competitor price row as consumed by `compare_to_competitors_in_market`
(columns `trade_value, trade_quantity`, the quantity possibly missing). -/
structure PriceRow where
  trade_value : ℚ
  trade_quantity : Option ℚ
deriving DecidableEq

/-- Result dictionary of `compare_to_competitors_in_market`. -/
structure MarketComparison where
  market_avg_price : Option ℚ
  afg_vs_market_pct : Option ℚ
  competitiveness : Option String
deriving DecidableEq

/-- The per-supplier unit prices of `compare_to_competitors_in_market`
(`indicators.py` lines 562-569): `value / quantity` where the quantity is
present and positive, with the null results dropped (`dropna`). -/
def validPrices (competitor_data : List PriceRow) : List ℚ :=
  competitor_data.filterMap (fun r =>
    match r.trade_quantity with
    | some q => if 0 < q then some (r.trade_value / q) else none
    | none => none)

/-- Embedding of `compare_to_competitors_in_market` (`indicators.py` lines
529-601); the unused `market_code` argument of the source is omitted. -/
def compare_to_competitors_in_market (afg_unit_price : Option ℚ)
    (competitor_data : List PriceRow) : MarketComparison :=
  match afg_unit_price with
  | none => ⟨none, none, none⟩
  | some p =>
    if competitor_data.isEmpty then ⟨none, none, none⟩
    else
      if (validPrices competitor_data).isEmpty then ⟨none, none, none⟩
      else
        let market_avg_price :=
          (validPrices competitor_data).sum / ((validPrices competitor_data).length : ℚ)
        if 0 < market_avg_price then
          let price_diff_pct := (p - market_avg_price) / market_avg_price * 100
          let competitiveness :=
            if price_diff_pct < -10 then "Highly Competitive"
            else if price_diff_pct < 0 then "Competitive"
            else if price_diff_pct < 10 then "Average"
            else "Above Market"
          ⟨some market_avg_price, some price_diff_pct, some competitiveness⟩
        else ⟨some market_avg_price, none, none⟩

/-- A global price row as consumed by `compare_to_global_average`
(columns `year, trade_value, trade_quantity`). -/
structure GlobalPriceRow where
  year : Int
  trade_value : ℚ
  trade_quantity : ℚ
deriving DecidableEq

/-- Result dictionary of `compare_to_global_average`. -/
structure GlobalComparison where
  global_avg_price : Option ℚ
  price_difference : Option ℚ
  price_difference_pct : Option ℚ
  competitiveness : Option String
deriving DecidableEq

/-- Embedding of `compare_to_global_average` (`indicators.py` lines 446-526). -/
def compare_to_global_average (afg_unit_price : Option ℚ)
    (global_prices : List GlobalPriceRow) (year : Option Int) : GlobalComparison :=
  match afg_unit_price with
  | none => ⟨none, none, none, none⟩
  | some p =>
    let global_data : List GlobalPriceRow := match year with
      | some y => global_prices.filter (fun r => r.year == y)
      | none =>
        global_prices.filter (fun r => r.year == intMax (global_prices.map GlobalPriceRow.year))
    if global_data.isEmpty then ⟨none, none, none, none⟩
    else
      let total_value := (global_data.map GlobalPriceRow.trade_value).sum
      let total_quantity := (global_data.map GlobalPriceRow.trade_quantity).sum
      if 0 < total_quantity then
        let global_avg_price := total_value / total_quantity
        let price_difference := p - global_avg_price
        let price_difference_pct :=
          if 0 < global_avg_price then some (price_difference / global_avg_price * 100) else none
        let competitiveness :=
          if |price_difference| < 1 / 100 then "Equal"
          else if 0 < price_difference then "Above"
          else "Below"
        ⟨some global_avg_price, some price_difference, price_difference_pct, some competitiveness⟩
      else ⟨none, none, none, none⟩

/-- A raw API cell: a numeric value, a non-numeric string (one that
`pd.to_numeric(errors='coerce')` turns into NaN), or a missing value. -/
inductive Cell where
  | num (q : ℚ)
  | str (s : String)
  | null
deriving DecidableEq

/-- Element-wise `pd.to_numeric(errors='coerce')`: numeric cells survive,
non-numeric and missing cells become null. -/
def toNumeric : Cell → Option ℚ
  | Cell.num q => some q
  | Cell.str _ => none
  | Cell.null => none

/-- Element-wise `.astype(str)` (a missing value renders as the string
`nan` in pandas). -/
def cellStr : Cell → String
  | Cell.num q => toString q
  | Cell.str s => s
  | Cell.null => "nan"

/-- Which raw columns the API response carries; mirrors the
`if 'X' in df.columns` table-level checks of `fetch_afghanistan_exports_batch`. -/
structure RawCols where
  refYear : Bool
  period : Bool
  primaryValue : Bool
  cifvalue : Bool
  qty : Bool
  netWgt : Bool
  cmdCode : Bool
  reporterCode : Bool
  reporterISO : Bool
deriving DecidableEq

/-- One raw API row; a cell of an absent column is never read. -/
structure RawRow where
  refYear : Cell
  period : Cell
  primaryValue : Cell
  cifvalue : Cell
  qty : Cell
  netWgt : Cell
  cmdCode : Cell
  reporterCode : Cell
  reporterISO : Cell
deriving DecidableEq

/-- A canonical record produced by the batch normalizer: `none` models both
an absent output column and a failed (NaN) coercion. -/
structure NormRecord where
  year : Option ℚ
  partner : Option Cell
  trade_value : Option ℚ
  trade_quantity : Option ℚ
  netweight : Option ℚ
  hs_code : Option Cell
deriving DecidableEq

/-- Per-row field resolution of `fetch_afghanistan_exports_batch`
(`comtrade_client.py` lines 174-211): reference year preferred over period,
primary value over CIF value, quantity taken only from `qty`, net weight kept
as a separate field, numeric reporter code (rendered to string) preferred
over reporter ISO (copied raw). -/
def normalizeRow (cols : RawCols) (anyReporterCode : Bool) (anyReporterISO : Bool)
    (r : RawRow) : NormRecord :=
  { year := if cols.refYear then toNumeric r.refYear
            else if cols.period then toNumeric r.period
            else none
    partner := if cols.reporterCode && anyReporterCode then some (Cell.str (cellStr r.reporterCode))
               else if cols.reporterISO && anyReporterISO then some r.reporterISO
               else none
    trade_value := if cols.primaryValue then toNumeric r.primaryValue
                   else if cols.cifvalue then toNumeric r.cifvalue
                   else none
    trade_quantity := if cols.qty then toNumeric r.qty else none
    netweight := if cols.netWgt then toNumeric r.netWgt else none
    hs_code := if cols.cmdCode then some r.cmdCode else none }

/-- Embedding of the normalization stage of `fetch_afghanistan_exports_batch`
(`comtrade_client.py` lines 150-230): an empty response yields an empty table,
and otherwise every input row is mapped (never dropped) through the field
resolution of `normalizeRow`. -/
def fetch_afghanistan_exports_batch (cols : RawCols) (rows : List RawRow) : List NormRecord :=
  if rows.isEmpty then []
  else
    rows.map (normalizeRow cols
      (rows.any (fun r => decide (r.reporterCode ≠ Cell.null)))
      (rows.any (fun r => decide (r.reporterISO ≠ Cell.null))))

/-- One row of the unified global import dataset returned by
`fetch_unified_global_imports` (`comtrade_client.py` lines 483-557), after its
code columns were rendered to strings and its year coerced. -/
structure UnifiedRow where
  reporterCode : String
  partnerCode : String
  year : Int
  primaryValue : Cell
  partnerDesc : Cell
  qty : Cell
  netWgt : Cell
deriving DecidableEq

/-- Which optional columns the unified dataset carries. -/
structure UnifiedCols where
  partnerDesc : Bool
  qty : Bool
  netWgt : Bool
deriving DecidableEq

/-- Output row of `fetch_market_imports_batch`. -/
structure MarketTotalRow where
  year : Int
  partner_code : String
  total_import_value : ℚ
  total_import_quantity : Option ℚ
deriving DecidableEq

/-- Output row of `fetch_market_imports_by_partner_batch`. -/
structure SupplierBreakdownRow where
  year : Int
  partner_code : String
  supplier : Cell
  trade_value : Option ℚ
  trade_quantity : Option ℚ
deriving DecidableEq

/-- Aggregation loop of `fetch_market_imports_batch` over the selected
world-total rows (`comtrade_client.py` lines 602-630): for each market and
year with data, sum the numerically-coerced primary values. -/
def marketTotalsCore (partner_codes : List String) (years : List Int)
    (world_totals : List UnifiedRow) : List MarketTotalRow :=
  if world_totals.isEmpty then []
  else
    (partner_codes.map (fun pc =>
      years.filterMap (fun y =>
        let year_data := world_totals.filter (fun r => r.reporterCode == pc && r.year == y)
        if year_data.isEmpty then none
        else some { year := y
                    partner_code := pc
                    total_import_value := (year_data.filterMap (fun r => toNumeric r.primaryValue)).sum
                    total_import_quantity := none }))).flatten

/-- Embedding of `fetch_market_imports_batch` (`comtrade_client.py` lines
560-630): market sizes are built exclusively from the rows whose
`partnerCode` is the World aggregate code `'0'`. -/
def fetch_market_imports_batch (partner_codes : List String) (years : List Int)
    (unified_data : List UnifiedRow) : List MarketTotalRow :=
  if partner_codes.isEmpty then []
  else if unified_data.isEmpty then []
  else
    marketTotalsCore partner_codes years
      (unified_data.filter (fun r => r.partnerCode == "0" && partner_codes.contains r.reporterCode))

/-- Column-shaping stage of `fetch_market_imports_by_partner_batch` on the
selected supplier rows (`comtrade_client.py` lines 691-725). -/
def supplierBreakdownCore (partner_codes : List String) (years : List Int)
    (ucols : UnifiedCols) (supplier_data : List UnifiedRow) : List SupplierBreakdownRow :=
  if supplier_data.isEmpty then []
  else
    let result : List SupplierBreakdownRow := supplier_data.map (fun r =>
      { year := r.year
        partner_code := r.reporterCode
        supplier := if ucols.partnerDesc then r.partnerDesc else Cell.str r.partnerCode
        trade_value := toNumeric r.primaryValue
        trade_quantity := if ucols.qty then toNumeric r.qty
                          else if ucols.netWgt then toNumeric r.netWgt
                          else none })
    result.filter (fun r => partner_codes.contains r.partner_code && years.contains r.year)

/-- Embedding of `fetch_market_imports_by_partner_batch` (`comtrade_client.py`
lines 649-725): supplier breakdowns are built exclusively from the rows whose
`partnerCode` is not the World aggregate code `'0'`. -/
def fetch_market_imports_by_partner_batch (partner_codes : List String) (years : List Int)
    (ucols : UnifiedCols) (unified_data : List UnifiedRow) : List SupplierBreakdownRow :=
  if partner_codes.isEmpty then []
  else if unified_data.isEmpty then []
  else
    supplierBreakdownCore partner_codes years ucols
      (unified_data.filter
        (fun r => !(r.partnerCode == "0") && partner_codes.contains r.reporterCode))

/-- Modelled from the spec, amended to the four buckets the code implements:
the total classification function on a defined deviation percentage, with
lower-inclusive boundaries at -10, 0 and 10. -/
def specClassify4 (d : ℚ) : String :=
  if d < -10 then "Highly Competitive"
  else if d < 0 then "Competitive"
  else if d < 10 then "Average"
  else "Above Market"

/-- A raw row with every cell missing, for building single-field test rows. -/
def blankRaw : RawRow :=
  ⟨Cell.null, Cell.null, Cell.null, Cell.null, Cell.null, Cell.null, Cell.null, Cell.null,
    Cell.null⟩

/-- Column set carrying only the preferred source fields of each resolution
pair (`refYear`, `primaryValue`, `reporterCode`), plus the shared `cmdCode`. -/
def preferredCols : RawCols := ⟨true, false, true, false, false, false, true, true, false⟩

/-- Column set carrying only the alternate source fields of each resolution
pair (`period`, `cifvalue`, `reporterISO`), plus the shared `cmdCode`. -/
def alternateCols : RawCols := ⟨false, true, false, true, false, false, true, false, true⟩

/-- A raw row carrying its year, value and reporter under the preferred names. -/
def preferredRow (vy vv hs : Cell) (s : String) : RawRow :=
  { blankRaw with refYear := vy, primaryValue := vv, cmdCode := hs, reporterCode := Cell.str s }

/-- A raw row carrying the same data under the alternate names. -/
def alternateRow (vy vv hs : Cell) (s : String) : RawRow :=
  { blankRaw with period := vy, cifvalue := vv, cmdCode := hs, reporterISO := Cell.str s }

instance : IsTotal SupplierRow (fun a b => b.import_value ≤ a.import_value) :=
  ⟨fun a b => le_total b.import_value a.import_value⟩

instance : IsTrans SupplierRow (fun a b => b.import_value ≤ a.import_value) :=
  ⟨fun _ _ _ h1 h2 => le_trans h2 h1⟩

/-- Composing a filter with a conjunctive refilter of the same predicate is
the same as the conjunctive filter alone. -/
lemma filter_filter_absorb {α : Type} (p q : α → Bool) (l : List α) :
    (l.filter p).filter (fun a => p a && q a) = l.filter (fun a => p a && q a) := by
  induction l with
  | nil => rfl
  | cons a t ih => cases hp : p a <;> cases hq : q a <;> simp [List.filter_cons, hp, hq, ih]

/-- Strengthening the predicate of an empty filter keeps it empty. -/
lemma filter_and_eq_nil {α : Type} (p q : α → Bool) (l : List α)
    (h : l.filter p = []) : l.filter (fun a => p a && q a) = [] := by
  rw [List.filter_eq_nil_iff] at h ⊢
  intro a ha
  simp [h a ha]

/-- Taking a prefix of a consecutive-number range is a consecutive range. -/
lemma take_range' (s L n : Nat) : (List.range' s L).take n = List.range' s (min n L) := by
  induction L generalizing s n with
  | zero => simp
  | succ L ih =>
    cases n with
    | zero => simp
    | succ n => simp [List.range'_succ, ih, Nat.succ_min_succ]

/-- The ranks assigned by the shared ranking pipeline are exactly the
positions 1, 2, ..., length. -/
lemma rankMarkets_map_rank (rows : List TradeRow) :
    (rankMarkets rows).map RankedMarket.rank = List.range' 1 (rankMarkets rows).length := by
  dsimp only [rankMarkets]
  set s := List.insertionSort (fun a b => b.2 ≤ a.2) (groupSumByPartner rows) with hs
  have hlen : (List.range' 1 s.length).length = s.length := by simp
  rw [List.map_map]
  have hcomp : (RankedMarket.rank ∘ fun x : (String × ℚ) × Nat =>
      (⟨x.1.1, x.1.2, x.2⟩ : RankedMarket)) = Prod.snd := rfl
  rw [hcomp, List.map_snd_zip _ _ (le_of_eq hlen), List.length_map, List.length_zip, hlen,
    min_self]

/-- Truncating to the top N keeps the ranks equal to the positions. -/
lemma rankMarkets_take_map_rank (rows : List TradeRow) (n : Nat) :
    ((rankMarkets rows).take n).map RankedMarket.rank
      = List.range' 1 ((rankMarkets rows).take n).length := by
  rw [List.map_take, rankMarkets_map_rank, take_range', List.length_take]

/-- The search loop finds nothing when every listed value beats the subject. -/
lemma findRank_eq_none (s : List SupplierRow) (v : ℚ) (k : Nat)
    (h : ∀ r ∈ s, v < r.import_value) : findRank s v k = none := by
  induction s generalizing k with
  | nil => rfl
  | cons a t ih =>
    dsimp only [findRank]
    rw [if_neg (not_le.mpr (h a (List.mem_cons_self a t)))]
    exact ih _ (fun r hr => h r (List.mem_cons_of_mem a hr))

/-- On a value-descending list containing some value ≤ the subject's, the
search loop returns the count of strictly greater values, offset by the
starting rank. -/
lemma findRank_eq_countP (s : List SupplierRow) (v : ℚ) (k : Nat)
    (hs : s.Pairwise (fun a b => b.import_value ≤ a.import_value))
    (hex : ∃ r ∈ s, r.import_value ≤ v) :
    findRank s v k = some (k + s.countP (fun r => decide (v < r.import_value))) := by
  induction s generalizing k with
  | nil =>
    obtain ⟨r, hr, _⟩ := hex
    cases hr
  | cons a t ih =>
    rw [List.pairwise_cons] at hs
    obtain ⟨ha, ht⟩ := hs
    by_cases hav : a.import_value ≤ v
    · dsimp only [findRank]
      rw [if_pos hav]
      have hcount : (a :: t).countP (fun r => decide (v < r.import_value)) = 0 := by
        rw [List.countP_eq_zero]
        intro r hr
        rcases List.mem_cons.mp hr with h | h
        · subst h
          simpa using not_lt.mpr hav
        · simpa using not_lt.mpr (le_trans (ha r h) hav)
      rw [hcount]
      simp
    · have hex' : ∃ r ∈ t, r.import_value ≤ v := by
        obtain ⟨r, hr, hrv⟩ := hex
        rcases List.mem_cons.mp hr with h | h
        · subst h
          exact absurd hrv hav
        · exact ⟨r, h, hrv⟩
      dsimp only [findRank]
      rw [if_neg hav, ih (k + 1) ht hex', List.countP_cons]
      have hpa : (decide (v < a.import_value) : Bool) = true := by
        simpa using not_le.mp hav
      rw [hpa]
      have hone : (if (true : Bool) = true then 1 else 0) = 1 := rfl
      rw [hone]
      congr 1
      omega

/-- C1 counterexample: with subject value 20 and market total value 0 for the
same market and year, `calculate_market_share` returns the number 0, not an
undefined/null result; likewise `get_competitor_shares` assigns the share 0
when the summed market-year total is 0. -/
theorem C1_counterexample :
    calculate_market_share [⟨2023, "356", 20⟩] [⟨2023, "356", 0⟩] "356" (some 2023) = 0
  ∧ (get_competitor_shares [⟨2023, "A", 0⟩] 5 (some 2023)).map CompetitorShareRow.market_share
      = [0] := by
  constructor
  · norm_num [calculate_market_share]
  · norm_num [get_competitor_shares, List.insertionSort, List.orderedInsert]

/-- C1 (amended): whenever the summed denominator for the selected market and
year is not positive, `calculate_market_share` returns the number 0 (never an
undefined result), and `get_competitor_shares` assigns the share 0 to every
returned supplier. -/
theorem C1_zero_denominator_yields_zero (afg_exports : List TradeRow)
    (total_imports : List ImportTotalRow) (market_code : String) (y : Int)
    (sup : List SupplierTradeRow) (top_n : Nat) (y2 : Int)
    (htot : (((total_imports.filter (fun r => r.partner_code == market_code)).filter
        (fun r => r.year == y)).map ImportTotalRow.total_import_value).sum ≤ 0)
    (hsup : ((sup.filter (fun r => r.year == y2)).map SupplierTradeRow.trade_value).sum ≤ 0) :
    calculate_market_share afg_exports total_imports market_code (some y) = 0
  ∧ ∀ s ∈ get_competitor_shares sup top_n (some y2), s.market_share = 0 := by
  constructor
  · dsimp only [calculate_market_share]
    by_cases h1 : (afg_exports.filter (fun r => r.partner == market_code)).isEmpty
    · simp [h1]
    · simp only [h1, Bool.false_eq_true, if_false]
      by_cases h2 : (total_imports.filter (fun r => r.partner_code == market_code)).isEmpty
      · simp [h2]
      · simp only [h2, Bool.false_eq_true, if_false]
        rw [if_neg (not_lt.mpr htot)]
  · intro s hs
    dsimp only [get_competitor_shares] at hs
    by_cases h1 : (sup.filter (fun r => r.year == y2)).isEmpty
    · rw [if_pos h1] at hs
      cases hs
    · rw [if_neg h1] at hs
      have hs' := List.mem_of_mem_take hs
      obtain ⟨x, hx, rfl⟩ := List.mem_map.mp hs'
      obtain ⟨hx1, _⟩ := List.of_mem_zip hx
      have hperm := List.perm_insertionSort
        (fun a b : SupplierTradeRow × ℚ => b.1.trade_value ≤ a.1.trade_value)
        ((sup.filter (fun r => r.year == y2)).map
          (fun r => (r, if 0 < ((sup.filter (fun r => r.year == y2)).map
              SupplierTradeRow.trade_value).sum
            then r.trade_value / ((sup.filter (fun r => r.year == y2)).map
              SupplierTradeRow.trade_value).sum * 100 else 0)))
      have hx2 := hperm.subset hx1
      obtain ⟨r, hr, heq⟩ := List.mem_map.mp hx2
      dsimp only [CompetitorShareRow.market_share]
      rw [← heq]
      dsimp only
      rw [if_neg (not_lt.mpr hsup)]

/-- C1 witness: the amended statement instantiated at the spec's scenario
(subject value 20, market total 0) and at a one-supplier market with total 0. -/
theorem C1_witness :
    calculate_market_share [⟨2023, "356", 20⟩] [⟨2023, "356", 0⟩] "356" (some 2023) = 0
  ∧ ∀ s ∈ get_competitor_shares [⟨2023, "A", 0⟩] 5 (some 2023), s.market_share = 0 :=
  C1_zero_denominator_yields_zero [⟨2023, "356", 20⟩] [⟨2023, "356", 0⟩] "356" 2023
    [⟨2023, "A", 0⟩] 5 2023 (by norm_num [List.filter_cons]) (by norm_num [List.filter_cons])

/-- C2 counterexample: a subject price 12 against a single competitor price 10
gives a deviation of exactly 20 percent, which the code classifies as
"Above Market", not "Premium" — there is no fifth bucket at the 20 boundary. -/
theorem C2_counterexample :
    compare_to_competitors_in_market (some 12) [⟨10, some 1⟩]
      = ⟨some 10, some 20, some "Above Market"⟩ := by
  norm_num [compare_to_competitors_in_market, validPrices, List.filterMap_cons]

/-- C2 (amended): whenever the deviation percentage is defined, the market
price classification of `compare_to_competitors_in_market` is the total
four-bucket function with lower-inclusive boundaries at -10, 0 and 10
(deviation ≥ 10, including ≥ 20, maps to "Above Market"); and whenever the
computed reference price is not positive, both the deviation and the
classification are undefined. -/
theorem C2_classification_four_buckets (p : ℚ) (data : List PriceRow) :
    (compare_to_competitors_in_market (some p) data).competitiveness
      = ((compare_to_competitors_in_market (some p) data).afg_vs_market_pct).map specClassify4
  ∧ ∀ avg : ℚ, (compare_to_competitors_in_market (some p) data).market_avg_price = some avg →
      avg ≤ 0 →
      (compare_to_competitors_in_market (some p) data).afg_vs_market_pct = none
      ∧ (compare_to_competitors_in_market (some p) data).competitiveness = none := by
  dsimp only [compare_to_competitors_in_market]
  by_cases he1 : data.isEmpty
  · simp only [he1, if_true]
    exact ⟨rfl, fun avg havg => absurd havg (by simp)⟩
  · simp only [he1, Bool.false_eq_true, if_false]
    by_cases he2 : (validPrices data).isEmpty
    · simp only [he2, if_true]
      exact ⟨rfl, fun avg havg => absurd havg (by simp)⟩
    · simp only [he2, Bool.false_eq_true, if_false]
      by_cases h3 : 0 < (validPrices data).sum / ((validPrices data).length : ℚ)
      · simp only [h3, if_true]
        refine ⟨rfl, fun avg havg hle => ?_⟩
        simp only [MarketComparison.market_avg_price, Option.some_inj] at havg
        rw [← havg] at hle
        exact absurd h3 (not_lt.mpr hle)
      · simp only [h3, if_false]
        exact ⟨by simp, fun avg havg hle => by simp⟩

/-- C2 witness: the amended statement applied at a market whose computed
reference price is -5 ≤ 0, where deviation and classification are undefined. -/
theorem C2_witness :
    (compare_to_competitors_in_market (some 0) [⟨-5, some 1⟩]).afg_vs_market_pct = none
  ∧ (compare_to_competitors_in_market (some 0) [⟨-5, some 1⟩]).competitiveness = none :=
  (C2_classification_four_buckets 0 [⟨-5, some 1⟩]).2 (-5)
    (by norm_num [compare_to_competitors_in_market, validPrices, List.filterMap_cons])
    (by norm_num)

/-- C3 counterexample: two partners tied at trade value 100 receive the
distinct ranks 1 and 2 from both identifiers — tied suppliers do not share a
rank, so the ranking is ordinal, not dense. -/
theorem C3_counterexample :
    identify_top_markets [⟨2023, "A", 100⟩, ⟨2023, "B", 100⟩] 10 none
      = [⟨"A", 100, 1⟩, ⟨"B", 100, 2⟩]
  ∧ identify_top_global_import_markets [⟨2023, "A", 100⟩, ⟨2023, "B", 100⟩] 10
      = [⟨"A", 100, 1⟩, ⟨"B", 100, 2⟩] := by
  constructor <;>
    norm_num +decide [identify_top_markets, identify_top_global_import_markets, rankMarkets,
      groupSumByPartner, intMax, List.insertionSort, List.orderedInsert, List.filter_cons]

/-- C3 (amended): for every input, the ranks assigned by
`identify_top_markets` and `identify_top_global_import_markets` are exactly
the consecutive positions 1, 2, ..., k of the rows after sorting by
aggregated value descending — a permutation-style ordinal ranking starting at
1 in which tied values receive distinct consecutive ranks. -/
theorem C3_ranks_are_consecutive_positions (df_exports : List TradeRow) (top_n : Nat)
    (year : Option Int) (global_imports : List TradeRow) :
    (identify_top_markets df_exports top_n year).map RankedMarket.rank
      = List.range' 1 (identify_top_markets df_exports top_n year).length
  ∧ (identify_top_global_import_markets global_imports top_n).map RankedMarket.rank
      = List.range' 1 (identify_top_global_import_markets global_imports top_n).length := by
  constructor
  · dsimp only [identify_top_markets]
    split
    · rfl
    · split
      · rfl
      · exact rankMarkets_take_map_rank _ _
  · dsimp only [identify_top_global_import_markets]
    split
    · rfl
    · split
      · rfl
      · exact rankMarkets_take_map_rank _ _

/-- C4: with fewer than 2 distinct years for the partner, every growth metric
of `calculate_growth_rate` is null (not zero and not an error), and the cagr
field is non-null only when the first and last years differ and the first
year's aggregated value is positive. -/
theorem C4_growth_null_guards (df_exports : List TradeRow) (market_code : String) :
    ((((df_exports.filter (fun r => r.partner == market_code)).map
          TradeRow.year).dedup.length < 2) →
        (calculate_growth_rate df_exports market_code).yoy_growth = none
      ∧ (calculate_growth_rate df_exports market_code).cagr = none
      ∧ (calculate_growth_rate df_exports market_code).absolute_growth = none
      ∧ (calculate_growth_rate df_exports market_code).growth_percentage = none)
  ∧ ((calculate_growth_rate df_exports market_code).cagr.isSome →
      (calculate_growth_rate df_exports market_code).first_year
        ≠ (calculate_growth_rate df_exports market_code).last_year
      ∧ ∃ fv : ℚ, (calculate_growth_rate df_exports market_code).first_value = some fv
          ∧ 0 < fv) := by
  have hlen : (yearlyTotals df_exports market_code).length
      = ((df_exports.filter (fun r => r.partner == market_code)).map
          TradeRow.year).dedup.length := by
    dsimp only [yearlyTotals]
    rw [List.length_map]
    exact ((List.perm_insertionSort _ _).dedup).length_eq
  constructor
  · intro h2
    have hlt : (yearlyTotals df_exports market_code).length < 2 := by
      rw [hlen]
      exact h2
    dsimp only [calculate_growth_rate]
    rw [if_pos hlt]
    exact ⟨rfl, rfl, rfl, rfl⟩
  · intro hc
    dsimp only [calculate_growth_rate] at hc ⊢
    by_cases hlt : (yearlyTotals df_exports market_code).length < 2
    · rw [if_pos hlt] at hc
      cases hc
    · rw [if_neg hlt] at hc ⊢
      dsimp only [growthFrom] at hc ⊢
      by_cases hcond : 0 < ((yearlyTotals df_exports market_code).getLast?.getD (0, 0)).1
            - ((yearlyTotals df_exports market_code).headI).1
          ∧ 0 < ((yearlyTotals df_exports market_code).headI).2
      · refine ⟨?_, ⟨((yearlyTotals df_exports market_code).headI).2, rfl, hcond.2⟩⟩
        intro heq
        rw [Option.some_inj] at heq
        have := hcond.1
        omega
      · rw [if_neg hcond] at hc
        cases hc

/-- C4 witness: the instantiation at an empty table, which has zero distinct
years, gives all-null metrics. -/
theorem C4_witness :
    (calculate_growth_rate [] "356").yoy_growth = none
  ∧ (calculate_growth_rate [] "356").cagr = none
  ∧ (calculate_growth_rate [] "356").absolute_growth = none
  ∧ (calculate_growth_rate [] "356").growth_percentage = none :=
  (C4_growth_null_guards [] "356").1 (by decide)

/-- C5 counterexample: Afghanistan is listed explicitly among the suppliers
with value 100 (listed rank 1), the subject's computed value is 50, and a
second supplier has value 40; the code returns rank 2 — the position where
the value 50 would insert — not the subject's listed rank 1. -/
theorem C5_counterexample :
    get_market_rank [⟨2023, "M", 50⟩] [⟨2023, "AFG", 100⟩, ⟨2023, "X", 40⟩] "M" (some 2023)
      = some 2 := by
  norm_num [get_market_rank, findRank, List.insertionSort, List.orderedInsert]

/-- C5 (amended): for a non-empty year-filtered supplier list, whenever some
supplier's value is ≤ the subject's value, `get_market_rank` returns
count(suppliers with value > subject value) + 1 regardless of whether the
subject is listed; only when every supplier value exceeds the subject's value
does the listed-rank branch apply, and the rank is n + 1 when the subject is
positive and unlisted, and undefined when the subject's value is ≤ 0. -/
theorem C5_market_rank_characterization (afg_exports : List TradeRow)
    (all_suppliers : List SupplierRow) (market_code : String) (y : Int)
    (ms : List SupplierRow) (v : ℚ)
    (hms : ms = all_suppliers.filter (fun r => r.year == y))
    (hv : v = (((afg_exports.filter (fun r => r.partner == market_code)).filter
        (fun r => r.year == y)).map TradeRow.trade_value).sum)
    (hne : ms ≠ []) :
    ((∃ r ∈ ms, r.import_value ≤ v) →
        get_market_rank afg_exports all_suppliers market_code (some y)
          = some (ms.countP (fun r => decide (v < r.import_value)) + 1))
  ∧ ((∀ r ∈ ms, v < r.import_value) → 0 < v → (∀ r ∈ ms, r.supplier ≠ AFGHANISTAN_CODE) →
        get_market_rank afg_exports all_suppliers market_code (some y)
          = some (ms.length + 1))
  ∧ ((∀ r ∈ ms, v < r.import_value) → v ≤ 0 →
        get_market_rank afg_exports all_suppliers market_code (some y) = none) := by
  subst hms hv
  set ms := all_suppliers.filter (fun r => r.year == y) with hms
  set v := (((afg_exports.filter (fun r => r.partner == market_code)).filter
      (fun r => r.year == y)).map TradeRow.trade_value).sum with hv
  have hnemp : ¬ (ms.isEmpty = true) := fun h => hne (List.isEmpty_iff.mp h)
  set sorted := List.insertionSort (fun a b => b.import_value ≤ a.import_value) ms with hsorted
  have hperm : sorted.Perm ms := List.perm_insertionSort _ ms
  have hpair : sorted.Pairwise (fun a b => b.import_value ≤ a.import_value) :=
    List.sorted_insertionSort _ ms
  refine ⟨?_, ?_, ?_⟩
  · intro hex
    have hex' : ∃ r ∈ sorted, r.import_value ≤ v := by
      obtain ⟨r, hr, hrv⟩ := hex
      exact ⟨r, hperm.mem_iff.mpr hr, hrv⟩
    have hfind := findRank_eq_countP sorted v 1 hpair hex'
    rw [hperm.countP_eq] at hfind
    dsimp only [get_market_rank]
    rw [if_neg hnemp]
    rw [← hsorted, hfind]
    rw [Nat.add_comm]
  · intro hall hpos hnoafg
    have hall' : ∀ r ∈ sorted, v < r.import_value :=
      fun r hr => hall r (hperm.mem_iff.mp hr)
    have hfind := findRank_eq_none sorted v 1 hall'
    have hany : sorted.any (fun r => r.supplier == AFGHANISTAN_CODE) = false := by
      rw [List.any_eq_false]
      intro r hr
      simpa using hnoafg r (hperm.mem_iff.mp hr)
    have hcnt : sorted.countP (fun r => decide (v < r.import_value)) = sorted.length :=
      List.countP_eq_length.mpr (fun r hr => by simpa using hall' r hr)
    dsimp only [get_market_rank]
    rw [if_neg hnemp]
    rw [← hsorted, hfind]
    rw [if_pos hpos, hany]
    rw [hcnt, hperm.length_eq]
    simp
  · intro hall hle
    have hall' : ∀ r ∈ sorted, v < r.import_value :=
      fun r hr => hall r (hperm.mem_iff.mp hr)
    have hfind := findRank_eq_none sorted v 1 hall'
    dsimp only [get_market_rank]
    rw [if_neg hnemp]
    rw [← hsorted, hfind]
    dsimp only
    rw [if_neg (not_lt.mpr hle)]

/-- C5 witness: the characterization applied at a market with one supplier of
value 40 and subject value 50, where the returned rank is
count(values > 50) + 1 = 1. -/
theorem C5_witness :
    get_market_rank [⟨2023, "M", 50⟩] [⟨2023, "X", 40⟩] "M" (some 2023) = some 1 := by
  have h := (C5_market_rank_characterization [⟨2023, "M", 50⟩] [⟨2023, "X", 40⟩] "M" 2023
      [⟨2023, "X", 40⟩] 50
      (by norm_num [List.filter_cons])
      (by norm_num [List.filter_cons])
      (by norm_num)).1
      ⟨⟨2023, "X", 40⟩, by norm_num, by norm_num⟩
  rw [h]
  norm_num [List.countP_cons]

/-- C6 counterexample: a row whose year cell fails numeric coercion is kept in
the output (length 1) with a null year, not dropped. -/
theorem C6_counterexample :
    fetch_afghanistan_exports_batch ⟨true, false, true, false, true, false, true, true, false⟩
      [⟨Cell.str "bad", Cell.null, Cell.num 100, Cell.null, Cell.num 5, Cell.null,
        Cell.str "080211", Cell.str "356", Cell.null⟩]
    = [{ year := none, partner := some (Cell.str "356"), trade_value := some 100,
         trade_quantity := some 5, netweight := none, hs_code := some (Cell.str "080211") }] := by
  decide

/-- C6 (amended): the batch normalizer never drops a row — its output always
has exactly one record per input row, with failed coercions kept as null
fields — and an empty source yields an empty table, not an error. -/
theorem C6_rows_never_dropped (cols : RawCols) (rows : List RawRow) :
    (fetch_afghanistan_exports_batch cols rows).length = rows.length
  ∧ (rows = [] → fetch_afghanistan_exports_batch cols rows = []) := by
  constructor
  · unfold fetch_afghanistan_exports_batch
    split
    · next h => simp [List.isEmpty_iff.mp h]
    · simp
  · intro h
    subst h
    rfl

/-- C6 witness: the amended statement applied at an empty response. -/
theorem C6_witness :
    fetch_afghanistan_exports_batch ⟨true, false, true, false, true, false, true, true, false⟩ []
      = [] :=
  (C6_rows_never_dropped ⟨true, false, true, false, true, false, true, true, false⟩ []).2 rfl

/-- C7: the World aggregate rows (partner code '0') are excluded from the
supplier breakdown — deleting them from the unified dataset does not change
`fetch_market_imports_by_partner_batch` — and they alone feed the market-size
totals — deleting every non-World row does not change
`fetch_market_imports_batch`. -/
theorem C7_world_rows_segregated (partner_codes : List String) (years : List Int)
    (ucols : UnifiedCols) (unified_data : List UnifiedRow) :
    fetch_market_imports_by_partner_batch partner_codes years ucols
        (unified_data.filter (fun r => !(r.partnerCode == "0")))
      = fetch_market_imports_by_partner_batch partner_codes years ucols unified_data
  ∧ fetch_market_imports_batch partner_codes years
        (unified_data.filter (fun r => r.partnerCode == "0"))
      = fetch_market_imports_batch partner_codes years unified_data := by
  constructor
  · unfold fetch_market_imports_by_partner_batch
    by_cases hp : partner_codes.isEmpty
    · simp [hp]
    · simp only [hp, Bool.false_eq_true, if_false]
      by_cases hu : unified_data.isEmpty
      · rw [List.isEmpty_iff.mp hu]
        simp
      · by_cases hf : (unified_data.filter (fun r => !(r.partnerCode == "0"))).isEmpty
        · have h0 : unified_data.filter (fun r => !(r.partnerCode == "0")) = [] :=
            List.isEmpty_iff.mp hf
          have h1 : unified_data.filter
              (fun r => !(r.partnerCode == "0") && partner_codes.contains r.reporterCode)
              = [] := filter_and_eq_nil _ _ _ h0
          simp only [hf, hu, if_true, Bool.false_eq_true, if_false]
          unfold supplierBreakdownCore
          rw [h1]
          simp
        · simp only [hf, hu, Bool.false_eq_true, if_false]
          rw [filter_filter_absorb]
  · unfold fetch_market_imports_batch
    by_cases hp : partner_codes.isEmpty
    · simp [hp]
    · simp only [hp, Bool.false_eq_true, if_false]
      by_cases hu : unified_data.isEmpty
      · rw [List.isEmpty_iff.mp hu]
        simp
      · by_cases hf : (unified_data.filter (fun r => r.partnerCode == "0")).isEmpty
        · have h0 : unified_data.filter (fun r => r.partnerCode == "0") = [] :=
            List.isEmpty_iff.mp hf
          have h1 : unified_data.filter
              (fun r => (r.partnerCode == "0") && partner_codes.contains r.reporterCode)
              = [] := filter_and_eq_nil _ _ _ h0
          simp only [hf, hu, if_true, Bool.false_eq_true, if_false]
          unfold marketTotalsCore
          rw [h1]
          simp
        · simp only [hf, hu, Bool.false_eq_true, if_false]
          rw [filter_filter_absorb]

/-- C8: on the records [{year 2023, partner "356", value 100}, {year 2024,
partner "356", value 150}], `calculate_growth_rate` for partner "356" returns
year-over-year growth 50, cagr 50, absolute growth 50 and growth percentage
50. -/
theorem C8_growth_scenario :
    (calculate_growth_rate [⟨2023, "356", 100⟩, ⟨2024, "356", 150⟩] "356").yoy_growth = some 50
  ∧ (calculate_growth_rate [⟨2023, "356", 100⟩, ⟨2024, "356", 150⟩] "356").cagr = some 50
  ∧ (calculate_growth_rate [⟨2023, "356", 100⟩, ⟨2024, "356", 150⟩] "356").absolute_growth
      = some 50
  ∧ (calculate_growth_rate [⟨2023, "356", 100⟩, ⟨2024, "356", 150⟩] "356").growth_percentage
      = some 50 := by
  have hyt : yearlyTotals [⟨2023, "356", 100⟩, ⟨2024, "356", 150⟩] "356"
      = [(2023, 100), (2024, 150)] := by
    norm_num [yearlyTotals, List.insertionSort, List.orderedInsert]
  refine ⟨?_, ?_, ?_, ?_⟩ <;>
    norm_num [calculate_growth_rate, hyt, growthFrom, List.headI, List.dropLast]

/-- C9 counterexample: a row carrying only the net-weight field does not
normalize to the same record as a row carrying only the quantity field with
the same value — the former leaves the quantity null and fills `netweight`
instead, so the claimed round-trip fails for the quantity pair. -/
theorem C9_counterexample :
    fetch_afghanistan_exports_batch ⟨true, false, true, false, true, false, true, true, false⟩
      [⟨Cell.num 2023, Cell.null, Cell.num 100, Cell.null, Cell.num 5, Cell.null,
        Cell.str "080211", Cell.str "356", Cell.null⟩]
    ≠ fetch_afghanistan_exports_batch ⟨true, false, true, false, false, true, true, true, false⟩
      [⟨Cell.num 2023, Cell.null, Cell.num 100, Cell.null, Cell.null, Cell.num 5,
        Cell.str "080211", Cell.str "356", Cell.null⟩] := by
  decide

/-- C9 (amended): the round-trip does hold for the other three resolution
pairs — a row carrying only period, CIF value and reporter-ISO (with equal
values) normalizes to the same canonical record as a row carrying only
reference year, primary value and reporter code. -/
theorem C9_preferred_alternate_roundtrip (vy vv hs : Cell) (s : String) :
    fetch_afghanistan_exports_batch preferredCols [preferredRow vy vv hs s]
      = fetch_afghanistan_exports_batch alternateCols [alternateRow vy vv hs s] := by
  simp [fetch_afghanistan_exports_batch, preferredCols, alternateCols, preferredRow,
    alternateRow, blankRaw, normalizeRow, cellStr]

/-- C10: when the subject's unit price is null, both price comparisons return
the fully-null result — every field is none, with no partial result and no
failure. -/
theorem C10_none_price_propagates (global_prices : List GlobalPriceRow) (year : Option Int)
    (competitor_data : List PriceRow) :
    compare_to_global_average none global_prices year = ⟨none, none, none, none⟩
  ∧ compare_to_competitors_in_market none competitor_data = ⟨none, none, none⟩ :=
  ⟨rfl, rfl⟩
